import Mathlib

/-!
Shallow embedding of the Flow-Forge repository code that the verified claims
are about: the `Blockchain` connector in `blockchain/web3_api.py` (constructor
validation, `build_transaction`, `get_nonce`, `check_balance`,
`transfer_tokens`) and the webhook view `process_blockchain_events` in
`blockchain/views.py`.

External effects (JSON-RPC reads, gas estimation, broadcast) are modelled by
an explicit oracle state `Web3State`; each operation returns its result
together with the ordered list of network calls it performed, so that
statements about which network traffic happens before a failure are provable.
-/

namespace FlowForge

/-- Values stored in a Python transaction dict: strings or integers. -/
inductive Val where
  | str : String → Val
  | num : Int → Val
deriving DecidableEq, Repr

/-- A Python dict with string keys, in insertion order. -/
abbrev TxDict := List (String × Val)

/-- Python truthiness of a `Val` (non-empty string, non-zero number). -/
def Val.truthy : Val → Bool
  | Val.str s => s != ""
  | Val.num n => n != 0

/-- Python dict item assignment `d[k] = v`: replaces the value in place when
the key is present, otherwise appends the pair at the end. -/
def dictSet (d : TxDict) (k : String) (v : Val) : TxDict :=
  cond (d.any (fun p => p.1 == k))
    (d.map (fun p => cond (p.1 == k) (k, v) p))
    (d ++ [(k, v)])

/-- Python `d.update(kvs)`: item assignment for each pair in order. -/
def dictUpdate (d : TxDict) (kvs : TxDict) : TxDict :=
  kvs.foldl (fun acc p => dictSet acc p.1 p.2) d

/-- Python `str.lower()` restricted to the ASCII range used by the code. -/
def str_lower (s : String) : String := String.mk (s.data.map Char.toLower)

/-- Python `int(...)` applied to an exact rational: truncation toward zero. -/
def int_trunc (q : ℚ) : Int := q.num.tdiv q.den

/-- One network round trip performed by the connector, in the order the
Python code issues them. -/
inductive NetCall where
  | getTransactionCount (addr : String)
  | estimateGas (tx : TxDict)
  | getGasPrice
  | getChainId
  | callDecimals
  | callBalanceOf (addr : String)
  | sendRawTransaction (tx : TxDict)
  | waitForReceipt
  | connectivityCheck
deriving DecidableEq, Repr

/-- Oracle for the external blockchain network as observed through web3:
per-address transaction counts, the gas estimator, the current gas price,
the chain id, and the hash assigned to a broadcast transaction. -/
structure Web3State where
  txCount : String → Nat
  estimateGas : TxDict → Nat
  gasPrice : Nat
  chainId : Nat
  txHash : TxDict → String

/-- Oracle for an ERC-20 token contract: raw integer balances, declared
decimal precision, and the ABI encoding of a `transfer(to, value)` call. -/
structure TokenContract where
  balanceOf : String → Nat
  decimals : Nat
  transferData : String → Int → String

/-- The state a successfully constructed `Blockchain` instance stores:
the (lowercased) chain and network identifiers. -/
structure Connector where
  chain : String
  network_type : String
deriving DecidableEq, Repr

/-- Errors raised by `Blockchain.__init__` and `_setup_web3`: the two
`ValueError` configuration rejections and the `ConnectionError`. -/
inductive InitError where
  | configurationError (msg : String)
  | connectionError (network : String)
deriving DecidableEq, Repr

/-- `supported_networks` from `Blockchain.__init__` (web3_api.py line 34). -/
def supported_networks : List String := ["mainnet", "sepolia"]

/-- Whether an init outcome is one of the `ValueError` configuration
rejections (as opposed to success or a connection failure). -/
def isConfigError : Except InitError Connector → Bool
  | Except.error (InitError.configurationError _) => true
  | _ => false

/-- Embedding of `Blockchain.__init__` plus `_setup_web3`
(web3_api.py lines 13-53): lowercase both arguments, reject a chain other
than ethereum, reject a network outside `supported_networks`, then perform
the live connectivity check; `connected` is the oracle answer of
`web3.is_connected()`.  Returns the outcome and the network calls made. -/
def blockchain_init (chain network_type : String) (connected : Bool) :
    Except InitError Connector × List NetCall :=
  let c := str_lower chain
  let n := str_lower network_type
  if c != "ethereum" then
    (Except.error (InitError.configurationError
      "Currently, only the Ethereum chain is supported."), [])
  else if !(supported_networks.contains n) then
    (Except.error (InitError.configurationError
      "Unsupported network type. Supported networks are: mainnet, sepolia."), [])
  else if connected then
    (Except.ok ⟨c, n⟩, [NetCall.connectivityCheck])
  else
    (Except.error (InitError.connectionError n), [NetCall.connectivityCheck])

/-- Embedding of `Blockchain.get_nonce` (web3_api.py lines 136-140): the
transaction count of the configured account `self.ACCOUNT`, regardless of
any other address. -/
def get_nonce (st : Web3State) (account : String) : Nat := st.txCount account

/-- `acceptable_attributes` from `Blockchain.build_transaction`
(web3_api.py lines 67-68). -/
def acceptable_attributes : List String :=
  ["from", "to", "gas", "gasPrice", "nonce", "data", "value", "maxFeePerGas",
   "maxPriorityFeePerGas"]

/-- The error raised at web3_api.py line 88; the f-string interpolates the
whole `kwargs` dict, so the error carries every keyword pair passed. -/
inductive BuildError where
  | invalidFields (kwargs : TxDict)
deriving DecidableEq, Repr

/-- The partial transaction assembled at web3_api.py lines 73-79 before gas
estimation: `from` and `nonce`, plus `data` when `kwargs.get("data")` is
truthy. -/
def buildPartial (from_address : String) (nonceV : Nat) (kwargs : TxDict) :
    TxDict :=
  let t : TxDict := [("from", Val.str from_address), ("nonce", Val.num nonceV)]
  match kwargs.lookup "data" with
  | some v => cond v.truthy (dictSet t "data" v) t
  | none => t

/-- Embedding of `Blockchain.build_transaction` (web3_api.py lines 55-95),
keeping the source order: nonce lookup when no nonce is supplied, the
partial dict, gas estimation against the partial when no gas is supplied,
gas price fetch when none is supplied, and only then the allow-list check
on the keyword overrides; on success gas and gasPrice are stored and the
overrides merged in.  The second component is the list of network calls
performed before returning or raising. -/
def build_transaction (st : Web3State) (account from_address : String)
    (gas gas_price nonce : Option Nat) (kwargs : TxDict) :
    Except BuildError TxDict × List NetCall :=
  let nonceV : Nat := match nonce with
    | some n => n
    | none => get_nonce st account
  let t1 : List NetCall := match nonce with
    | some _ => []
    | none => [NetCall.getTransactionCount account]
  let transaction := buildPartial from_address nonceV kwargs
  let gasV : Nat := match gas with
    | some g => g
    | none => st.estimateGas transaction
  let t2 : List NetCall := match gas with
    | some _ => []
    | none => [NetCall.estimateGas transaction]
  let gasPriceV : Nat := match gas_price with
    | some g => g
    | none => st.gasPrice
  let t3 : List NetCall := match gas_price with
    | some _ => []
    | none => [NetCall.getGasPrice]
  let trace := t1 ++ t2 ++ t3
  if kwargs.all (fun p => acceptable_attributes.contains p.1) then
    (Except.ok (dictUpdate
        (dictSet (dictSet transaction "gas" (Val.num gasV))
          "gasPrice" (Val.num gasPriceV)) kwargs), trace)
  else
    (Except.error (BuildError.invalidFields kwargs), trace)

/-- Field lookup on a build outcome: the value stored under key `k` when the
build succeeded. -/
def txField (r : Except BuildError TxDict) (k : String) : Option Val :=
  match r with
  | Except.ok t => t.lookup k
  | Except.error _ => none

/-- Number of decimal digits of a natural number (0 for 0), by fuel
recursion with the number itself as fuel. -/
def numDigitsAux : Nat → Nat → Nat
  | 0, _ => 0
  | fuel + 1, n => if n = 0 then 0 else numDigitsAux fuel (n / 10) + 1

/-- Number of decimal digits of a natural number (0 for 0). -/
def numDigits (n : Nat) : Nat := numDigitsAux n n

/-- Round `b / s` to the nearest integer with ties to even (`s > 0`): the
ROUND_HALF_EVEN rule of the default Python Decimal context. -/
def roundHalfEvenDiv (b s : Nat) : Nat :=
  let q := b / s
  let r := b % s
  if 2 * r < s then q
  else if s < 2 * r then q + 1
  else if q % 2 = 0 then q
  else q + 1

/-- The integer `b` rounded half-even to `prec` significant digits, as the
default Decimal context does to a result coefficient that exceeds the
context precision; a coefficient of at most `prec` digits is kept exact. -/
def decimalRoundInt (prec b : Nat) : Nat :=
  if numDigits b ≤ prec then b
  else
    let s := 10 ^ (numDigits b - prec)
    roundHalfEvenDiv b s * s

/-- Value of Python `Decimal(b) / Decimal(10 ** d)` under a context with
precision `prec` and ROUND_HALF_EVEN (the default context has precision
28).  Dividing by a power of ten is exact in decimal, so the quotient
coefficient is `b` itself: it is kept exact when it fits in the context
precision and rounded half-even to `prec` significant digits otherwise. -/
def decimalDivPow10 (prec b d : Nat) : ℚ :=
  (decimalRoundInt prec b : ℚ) / (10 : ℚ) ^ d

/-- Embedding of `Blockchain.check_balance` (web3_api.py lines 97-113): one
read-only call for the raw integer balance, a second for the declared
decimals, then `Decimal(balance) / Decimal(10 ** decimals)` evaluated
under the default Decimal context, which rounds the quotient to 28
significant digits (ROUND_HALF_EVEN). -/
def check_balance (c : TokenContract) (address : String) :
    ℚ × List NetCall :=
  let balance := c.balanceOf address
  let decimals := c.decimals
  (decimalDivPow10 28 balance decimals,
   [NetCall.callBalanceOf address, NetCall.callDecimals])

/-- Embedding of `Blockchain.transfer_tokens` (web3_api.py lines 273-301):
decimals lookup, value scaling with `int(...)`, the inline transaction dict
`{chainId, gasPrice, nonce, from}`, gas estimated against exactly that
partial dict, the contract `transfer` call data merged in by the web3
library, sign, broadcast.  Returns the transaction hash, the final
transaction, and the ordered network calls; no receipt wait is performed. -/
def transfer_tokens (st : Web3State) (account : String) (c : TokenContract)
    (token_contract_address to_address : String) (amount : ℚ) :
    String × TxDict × List NetCall :=
  let value := int_trunc (amount * (10 : ℚ) ^ c.decimals)
  let tx : TxDict :=
    [("chainId", Val.num st.chainId), ("gasPrice", Val.num st.gasPrice),
     ("nonce", Val.num (get_nonce st account)), ("from", Val.str account)]
  let gasV := st.estimateGas tx
  let tx1 := dictSet tx "gas" (Val.num gasV)
  let transaction := dictUpdate tx1
    [("to", Val.str token_contract_address),
     ("data", Val.str (c.transferData to_address value))]
  (st.txHash transaction, transaction,
   [NetCall.callDecimals, NetCall.getChainId, NetCall.getGasPrice,
    NetCall.getTransactionCount account, NetCall.estimateGas tx,
    NetCall.sendRawTransaction transaction])

/-- JSON values, as produced by `json.loads` in the webhook view. -/
inductive Json where
  | null
  | bool (b : Bool)
  | num (n : Int)
  | str (s : String)
  | arr (xs : List Json)
  | obj (fields : List (String × Json))

/-- Python truthiness of a JSON value. -/
def Json.truthy : Json → Bool
  | Json.null => false
  | Json.bool b => b
  | Json.num n => n != 0
  | Json.str s => s != ""
  | Json.arr xs => !xs.isEmpty
  | Json.obj fs => !fs.isEmpty

/-- The exceptions Python raises on subscripting during the path traversal
`data["event"]["data"]["block"]["logs"]`: `KeyError` for a dict missing the
key, `TypeError` for subscripting a non-dict with a string key. -/
inductive PyError where
  | keyError (k : String)
  | typeError
deriving DecidableEq, Repr

/-- Python `x[k]` for a JSON value and a string key. -/
def jsonIndex : Json → String → Except PyError Json
  | Json.obj fields, k =>
      match fields.lookup k with
      | some v => Except.ok v
      | none => Except.error (PyError.keyError k)
  | _, _ => Except.error PyError.typeError

/-- The traversal `data["event"]["data"]["block"]["logs"]` from
views.py line 16. -/
def logsOf (data : Json) : Except PyError Json :=
  (jsonIndex data "event").bind fun ev =>
  (jsonIndex ev "data").bind fun d =>
  (jsonIndex d "block").bind fun b =>
  jsonIndex b "logs"

/-- The access `data["event"]["network"]` from views.py line 18. -/
def networkOf (data : Json) : Except PyError Json :=
  (jsonIndex data "event").bind fun ev => jsonIndex ev "network"

/-- Observable outcome of the webhook view: an HTTP response (Django
`HttpResponse(200)` has status 200 and body "200"), an uncaught Python
exception, or falling through without a response (the view returns None). -/
inductive HandlerOutcome where
  | response (status : Nat) (content : String)
  | pyError (e : PyError)
  | noResponse
deriving DecidableEq, Repr

/-- Whether the outcome is an uncaught `KeyError`. -/
def isKeyError : HandlerOutcome → Bool
  | HandlerOutcome.pyError (PyError.keyError _) => true
  | _ => false

/-- Embedding of `process_blockchain_events` (views.py lines 10-23).  The
body is `none` when `json.loads` raises `JSONDecodeError` (that exception is
caught, logged, and the view returns None).  On a parsed body the logs path
is read; a failure there is an uncaught exception.  When the logs value is
truthy the f-string reads `data["event"]["network"]` before the payload is
queued; the second component is the payload handed to
`process_events.delay`, when any. -/
def process_blockchain_events (method : String) (body : Option Json) :
    HandlerOutcome × Option Json :=
  if method = "POST" then
    match body with
    | none => (HandlerOutcome.noResponse, none)
    | some data =>
      match logsOf data with
      | Except.error e => (HandlerOutcome.pyError e, none)
      | Except.ok logs =>
        if logs.truthy then
          match networkOf data with
          | Except.error e => (HandlerOutcome.pyError e, none)
          | Except.ok _ => (HandlerOutcome.response 200 "200", some data)
        else
          (HandlerOutcome.response 200 "200", none)
  else
    (HandlerOutcome.noResponse, none)

/-- Whether the outcome is an HTTP response with a success status. -/
def isSuccess : HandlerOutcome → Bool
  | HandlerOutcome.response _ _ => true
  | _ => false

/-- Whether an init outcome is a success. -/
def initOk : Except InitError Connector → Bool
  | Except.ok _ => true
  | Except.error _ => false

/-- The chain and network validation of the constructor, as a predicate on
the raw arguments. -/
def supportedPair (chain network : String) : Bool :=
  (str_lower chain == "ethereum")
    && supported_networks.contains (str_lower network)

/-- Concrete network oracle: every address has transaction count 5, every
gas estimate is 21000, the gas price is 100. -/
def st0 : Web3State :=
  { txCount := fun _ => 5
    estimateGas := fun _ => 21000
    gasPrice := 100
    chainId := 1
    txHash := fun _ => "0xhash" }

/-- Oracle whose transaction counts differ between addresses: 5 for `0xA`
and 7 for everything else. -/
def st2 : Web3State :=
  { txCount := fun a => cond (a == "0xA") 5 7
    estimateGas := fun _ => 21000
    gasPrice := 100
    chainId := 1
    txHash := fun _ => "0xhash" }

/-- Oracle whose gas estimator answers 100 when the queried partial
transaction carries a `chainId` key and 50 otherwise, distinguishing the
two gas-estimation pipelines. -/
def st3 : Web3State :=
  { txCount := fun _ => 5
    estimateGas := fun d => cond (d.any (fun p => p.1 == "chainId")) 100 50
    gasPrice := 9
    chainId := 1
    txHash := fun _ => "0xhash" }

/-- Concrete token contract with zero decimals and a fixed transfer
calldata encoding. -/
def tc0 : TokenContract :=
  { balanceOf := fun _ => 1000
    decimals := 0
    transferData := fun _ _ => "0xa9059cbb" }

/-- Token contract with six decimals and a balance well inside the 28-digit
context precision. -/
def tc6 : TokenContract :=
  { balanceOf := fun _ => 1234567
    decimals := 6
    transferData := fun _ _ => "0xa9059cbb" }

/-- Token contract with eighteen decimals and a 21-digit balance, still
inside the 28-digit context precision. -/
def tc18 : TokenContract :=
  { balanceOf := fun _ => 10 ^ 20 + 1
    decimals := 18
    transferData := fun _ _ => "0xa9059cbb" }

/-- Token contract whose raw balance 10^30 + 1 has 31 significant digits,
past the 28-digit precision of the default Decimal context. -/
def tc7 : TokenContract :=
  { balanceOf := fun _ => 10 ^ 30 + 1
    decimals := 0
    transferData := fun _ _ => "0xa9059cbb" }

/-- Webhook payload with a non-empty logs list but no `network` key under
`event`. -/
def body_nonet : Json :=
  Json.obj [("event", Json.obj [("data",
    Json.obj [("block", Json.obj [("logs", Json.arr [Json.num 1])])])])]

/-- Webhook payload with a non-empty logs list and a `network` key. -/
def body_full : Json :=
  Json.obj [("event", Json.obj
    [("network", Json.str "ETH_SEPOLIA"),
     ("data", Json.obj [("block", Json.obj [("logs", Json.arr [Json.num 1])])])])]

/-- Webhook payload with an empty logs list. -/
def body_emptyLogs : Json :=
  Json.obj [("event", Json.obj
    [("network", Json.str "ETH_SEPOLIA"),
     ("data", Json.obj [("block", Json.obj [("logs", Json.arr [])])])])]

/-- Valid JSON whose `event` key holds a number, so the path traversal
subscripts a non-dict. -/
def body_badevent : Json := Json.obj [("event", Json.num 5)]

/-! ### Lookup lemmas for the dict model -/

theorem lookup_append_single_ne (d : TxDict) (k k2 : String) (v : Val)
    (h : k ≠ k2) : (d ++ [(k2, v)]).lookup k = d.lookup k := by
  have hk : (k == k2) = false := by simp [h]
  induction d with
  | nil => simp [List.lookup, hk]
  | cons p t ih =>
    obtain ⟨k1, v1⟩ := p
    cases hbe : (k == k1) <;> simp [List.lookup, hbe, ih]

theorem lookup_map_set_ne (d : TxDict) (k k2 : String) (v : Val)
    (h : k ≠ k2) :
    (d.map (fun p => cond (p.1 == k2) (k2, v) p)).lookup k
      = d.lookup k := by
  have hk : (k == k2) = false := by simp [h]
  induction d with
  | nil => rfl
  | cons p t ih =>
    obtain ⟨k1, v1⟩ := p
    cases hp : (k1 == k2) with
    | true =>
      have hp1 : k1 = k2 := by simpa using hp
      have hkp : (k == k1) = false := by rw [hp1]; exact hk
      simp [List.lookup, hp, hk, hkp, ih]
    | false =>
      cases hkp : (k == k1) <;> simp [List.lookup, hp, hkp, ih]

theorem lookup_dictSet_ne (d : TxDict) (k k2 : String) (v : Val)
    (h : k ≠ k2) : (dictSet d k2 v).lookup k = d.lookup k := by
  unfold dictSet
  cases hany : d.any (fun p => p.1 == k2) with
  | true => simpa [hany] using lookup_map_set_ne d k k2 v h
  | false => simpa [hany] using lookup_append_single_ne d k k2 v h

theorem lookup_dictUpdate_of_none (d kvs : TxDict) (k : String)
    (h : kvs.lookup k = none) : (dictUpdate d kvs).lookup k = d.lookup k := by
  induction kvs generalizing d with
  | nil => rfl
  | cons p t ih =>
    obtain ⟨k1, v1⟩ := p
    cases hbe : (k == k1) with
    | true => simp [List.lookup, hbe] at h
    | false =>
      have ht : t.lookup k = none := by simpa [List.lookup, hbe] using h
      have hk : k ≠ k1 := by
        intro he
        rw [he] at hbe
        simp at hbe
      show (dictUpdate (dictSet d k1 v1) t).lookup k = d.lookup k
      rw [ih (dictSet d k1 v1) ht, lookup_dictSet_ne d k k1 v1 hk]

/-- The nonce entry of the partial transaction is the nonce value that was
put there. -/
theorem buildPartial_lookup_nonce (fa : String) (n : Nat) (kwargs : TxDict) :
    (buildPartial fa n kwargs).lookup "nonce" = some (Val.num n) := by
  unfold buildPartial
  cases hd : kwargs.lookup "data" with
  | none => rfl
  | some v =>
    cases ht : v.truthy with
    | false => simp [ht, List.lookup]
    | true =>
      simp only [ht, cond_true]
      rw [lookup_dictSet_ne _ _ _ _ (by decide : ("nonce" : String) ≠ "data")]
      rfl

/-- A number below `10 ^ e` has at most `e` decimal digits, stated for the
fuel-indexed digit counter. -/
theorem numDigitsAux_le (fuel n e : Nat) (hn : n ≤ fuel) (h : n < 10 ^ e) :
    numDigitsAux fuel n ≤ e := by
  induction fuel generalizing n e with
  | zero =>
    have h0 : n = 0 := Nat.le_zero.mp hn
    subst h0
    exact Nat.zero_le e
  | succ fuel ih =>
    by_cases h0 : n = 0
    · subst h0
      show (if (0 : Nat) = 0 then 0 else numDigitsAux fuel (0 / 10) + 1) ≤ e
      rw [if_pos rfl]
      exact Nat.zero_le e
    · cases e with
      | zero =>
        exfalso
        have hlt : n < 1 := by simpa using h
        omega
      | succ e =>
        have hlt : n / 10 < 10 ^ e := by
          rw [Nat.div_lt_iff_lt_mul (by norm_num : 0 < 10)]
          calc n < 10 ^ (e + 1) := h
            _ = 10 ^ e * 10 := by rw [pow_succ]
        have hfuel : n / 10 ≤ fuel := by
          have hdl : n / 10 < n :=
            Nat.div_lt_self (Nat.pos_of_ne_zero h0) (by norm_num)
          omega
        have hrec := ih (n / 10) e hfuel hlt
        show (if n = 0 then 0 else numDigitsAux fuel (n / 10) + 1) ≤ e + 1
        rw [if_neg h0]
        omega

/-- A number below `10 ^ e` has at most `e` decimal digits. -/
theorem numDigits_le (n e : Nat) (h : n < 10 ^ e) : numDigits n ≤ e :=
  numDigitsAux_le n n e le_rfl h

/-- A coefficient that fits in the 28-digit context precision is kept
exact by the context rounding. -/
theorem decimalRoundInt_eq_self (b : Nat) (h : b < 10 ^ 28) :
    decimalRoundInt 28 b = b := by
  unfold decimalRoundInt
  rw [if_pos (numDigits_le b 28 h)]

/-- A keyword map with a key outside the allow-list fails the all-check of
web3_api.py line 87. -/
theorem all_eq_false_of_any_invalid (kwargs : TxDict)
    (h : kwargs.any (fun p => !(acceptable_attributes.contains p.1)) = true) :
    kwargs.all (fun p => acceptable_attributes.contains p.1) = false := by
  cases hq : kwargs.all (fun p => acceptable_attributes.contains p.1) with
  | false => rfl
  | true =>
    rcases List.any_eq_true.mp h with ⟨p, hmem, hp⟩
    have h2 := List.all_eq_true.mp hq p hmem
    rw [h2] at hp
    simp at hp

/-! ### Claim theorems -/

/-- Claim C1, counterexample: a `build_transaction` call with the invalid
override key `foo` and no gas, gas price, or nonce supplied does raise the
invalid-field rejection, but only after performing the nonce lookup, the gas
estimation, and the gas-price fetch; the network trace before the rejection
is not empty, contradicting the claim that no network call happens before
the invalid-field rejection. -/
theorem C1_counterexample :
    build_transaction st0 "0xB" "0xB" none none none [("foo", Val.num 1)]
      = (Except.error (BuildError.invalidFields [("foo", Val.num 1)]),
         [NetCall.getTransactionCount "0xB",
          NetCall.estimateGas [("from", Val.str "0xB"), ("nonce", Val.num 5)],
          NetCall.getGasPrice])
    ∧ (decide ((build_transaction st0 "0xB" "0xB" none none none
         [("foo", Val.num 1)]).2 = ([] : List NetCall))) = false :=
  ⟨rfl, rfl⟩

/-- Claim C1, amended: a `build_transaction` call whose keyword-override map
contains a key outside the recognized set fails with the invalid-field
rejection, but when no nonce, gas, or gas price override is supplied, the
nonce lookup, the gas estimation against the partial transaction, and the
gas-price fetch are all performed, in that order, before the rejection is
raised. -/
theorem C1_amended (st : Web3State) (account from_address : String)
    (kwargs : TxDict)
    (h : kwargs.any (fun p => !(acceptable_attributes.contains p.1)) = true) :
    build_transaction st account from_address none none none kwargs
      = (Except.error (BuildError.invalidFields kwargs),
         [NetCall.getTransactionCount account,
          NetCall.estimateGas
            (buildPartial from_address (st.txCount account) kwargs),
          NetCall.getGasPrice]) := by
  have hall := all_eq_false_of_any_invalid kwargs h
  unfold build_transaction
  rw [if_neg (by rw [hall]; exact Bool.false_ne_true)]
  rfl

/-- Witness for the amended claim C1 at the concrete oracle `st0` and the
keyword map containing only the invalid key `foo`. -/
theorem C1_amended_witness :
    ([("foo", Val.num 1)] : TxDict).any
      (fun p => !(acceptable_attributes.contains p.1)) = true
    ∧ build_transaction st0 "0xB" "0xB" none none none [("foo", Val.num 1)]
      = (Except.error (BuildError.invalidFields [("foo", Val.num 1)]),
         [NetCall.getTransactionCount "0xB",
          NetCall.estimateGas
            (buildPartial "0xB" (st0.txCount "0xB") [("foo", Val.num 1)]),
          NetCall.getGasPrice]) :=
  ⟨by decide, C1_amended st0 "0xB" "0xB" [("foo", Val.num 1)] (by decide)⟩

/-- Claim C2, counterexample: with the oracle `st2`, whose transaction count
is 5 for address `0xA` and 7 for every other address, a `build_transaction`
call with sender `from_address = 0xA` on a connector whose configured
account is `0xB` succeeds and stores nonce 7, the count of the configured
account, not the count 5 of the sender passed as `from_address`. -/
theorem C2_counterexample :
    st2.txCount "0xA" = 5
    ∧ txField (build_transaction st2 "0xB" "0xA" none none none []).1 "nonce"
        = some (Val.num 7)
    ∧ (decide (txField
          (build_transaction st2 "0xB" "0xA" none none none []).1 "nonce"
        = some (Val.num (st2.txCount "0xA")))) = false :=
  ⟨rfl, rfl, rfl⟩

/-- Claim C2, amended: for every call to `build_transaction` with no nonce
override supplied and keyword overrides that pass the allow-list and do not
themselves set a nonce, the nonce of the resulting unsigned transaction is
the connector current on-chain transaction count for the connector
configured account (`self.ACCOUNT`), queried at call time — not the count
of the `from_address` argument. -/
theorem C2_amended (st : Web3State) (account from_address : String)
    (gas gas_price : Option Nat) (kwargs : TxDict)
    (hall : kwargs.all (fun p => acceptable_attributes.contains p.1) = true)
    (hn : kwargs.lookup "nonce" = none) :
    txField (build_transaction st account from_address gas gas_price none
        kwargs).1 "nonce"
      = some (Val.num (st.txCount account)) := by
  unfold build_transaction txField
  simp only [hall, if_true, get_nonce]
  rw [lookup_dictUpdate_of_none _ _ _ hn,
      lookup_dictSet_ne _ _ _ _ (by decide : ("nonce" : String) ≠ "gasPrice"),
      lookup_dictSet_ne _ _ _ _ (by decide : ("nonce" : String) ≠ "gas"),
      buildPartial_lookup_nonce]

/-- Witness for the amended claim C2 at the concrete oracle `st2`. -/
theorem C2_amended_witness :
    (([] : TxDict).all (fun p => acceptable_attributes.contains p.1) = true)
    ∧ (([] : TxDict).lookup "nonce" = none)
    ∧ txField (build_transaction st2 "0xB" "0xA" none none none []).1 "nonce"
        = some (Val.num (st2.txCount "0xB")) :=
  ⟨by decide, rfl, C2_amended st2 "0xB" "0xA" none none [] (by decide) rfl⟩

/-- Claim C5, confirmed: a `build_transaction` call whose keyword-override
map contains at least one key outside the allow-list `{from, to, gas,
gasPrice, nonce, data, value, maxFeePerGas, maxPriorityFeePerGas}` fails
with an invalid-field error that carries the whole keyword map that was
actually passed, valid keys included, not just the first offending key. -/
theorem C5_invalid_fields (st : Web3State) (account from_address : String)
    (gas gas_price nonce : Option Nat) (kwargs : TxDict)
    (h : kwargs.any (fun p => !(acceptable_attributes.contains p.1)) = true) :
    (build_transaction st account from_address gas gas_price nonce kwargs).1
      = Except.error (BuildError.invalidFields kwargs) := by
  have hall := all_eq_false_of_any_invalid kwargs h
  unfold build_transaction
  rw [if_neg (by rw [hall]; exact Bool.false_ne_true)]

/-- Witness for claim C5: a keyword map holding the invalid key `foo` and
the valid key `to` is rejected with an error that reports both keys. -/
theorem C5_witness :
    ([("foo", Val.num 1), ("to", Val.str "0xC")] : TxDict).any
      (fun p => !(acceptable_attributes.contains p.1)) = true
    ∧ (build_transaction st0 "0xB" "0xB" none none none
        [("foo", Val.num 1), ("to", Val.str "0xC")]).1
      = Except.error (BuildError.invalidFields
          [("foo", Val.num 1), ("to", Val.str "0xC")]) :=
  ⟨by decide, C5_invalid_fields st0 "0xB" "0xB" none none none
    [("foo", Val.num 1), ("to", Val.str "0xC")] (by decide)⟩

/-- Claim C6, confirmed: a `build_transaction` call whose only overrides are
a truthy data payload and a value, with no gas, gas price, or nonce
supplied, produces a transaction whose nonce is the connector current-nonce
result, whose gas is the connector estimate over the partial skeleton
holding exactly the from, nonce, and data fields, and whose gasPrice is the
connector current gas price. -/
theorem C6_defaults (st : Web3State) (account from_address : String)
    (payload : String) (v : Int) (hp : payload ≠ "") :
    txField (build_transaction st account from_address none none none
        [("data", Val.str payload), ("value", Val.num v)]).1 "nonce"
      = some (Val.num (st.txCount account))
    ∧ txField (build_transaction st account from_address none none none
        [("data", Val.str payload), ("value", Val.num v)]).1 "gas"
      = some (Val.num (st.estimateGas
          [("from", Val.str from_address),
           ("nonce", Val.num (st.txCount account)),
           ("data", Val.str payload)]))
    ∧ txField (build_transaction st account from_address none none none
        [("data", Val.str payload), ("value", Val.num v)]).1 "gasPrice"
      = some (Val.num st.gasPrice) := by
  have htr : ((payload != "") : Bool) = true := by simp [hp]
  have hmem1 : ("data" : String) ∈ acceptable_attributes := by decide
  have hmem2 : ("value" : String) ∈ acceptable_attributes := by decide
  refine ⟨?_, ?_, ?_⟩ <;>
    simp [build_transaction, txField, buildPartial, get_nonce, Val.truthy,
      htr, hmem1, hmem2, dictSet, dictUpdate, List.lookup]

/-- Witness for claim C6: the spec scenario with payload `0xabc`, value 0,
and on-chain nonce 5 at the oracle `st0`. -/
theorem C6_witness :
    ("0xabc" : String) ≠ ""
    ∧ txField (build_transaction st0 "0xA" "0xA" none none none
        [("data", Val.str "0xabc"), ("value", Val.num 0)]).1 "nonce"
      = some (Val.num 5)
    ∧ txField (build_transaction st0 "0xA" "0xA" none none none
        [("data", Val.str "0xabc"), ("value", Val.num 0)]).1 "gas"
      = some (Val.num 21000)
    ∧ txField (build_transaction st0 "0xA" "0xA" none none none
        [("data", Val.str "0xabc"), ("value", Val.num 0)]).1 "gasPrice"
      = some (Val.num 100) :=
  ⟨by decide, (C6_defaults st0 "0xA" "0xA" "0xabc" 0 (by decide)).1,
   (C6_defaults st0 "0xA" "0xA" "0xabc" 0 (by decide)).2.1,
   (C6_defaults st0 "0xA" "0xA" "0xabc" 0 (by decide)).2.2⟩

/-- Claim C3, counterexample: with the oracle `st3`, whose gas estimator
answers 100 for a partial transaction carrying a `chainId` key and 50
otherwise, `transfer_tokens` stores gas 100, while the gas estimate over
the partial transaction of sender, nonce, and payload only — the estimate
that the claim says is used — is 50. -/
theorem C3_counterexample :
    (transfer_tokens st3 "0xB" tc0 "0xC" "0xD" 2).2.1.lookup "gas"
      = some (Val.num 100)
    ∧ st3.estimateGas
        [("from", Val.str "0xB"), ("nonce", Val.num 5),
         ("data", Val.str (tc0.transferData "0xD"
           (int_trunc ((2 : ℚ) * (10 : ℚ) ^ tc0.decimals))))]
      = 50
    ∧ (decide (some (Val.num (100 : Int)) = some (Val.num (50 : Int))))
      = false :=
  ⟨rfl, rfl, rfl⟩

/-- Claim C3, amended: `transfer_tokens` builds its contract-call
transaction inline rather than through `build_transaction`; its nonce and
gas-price defaults match the `build_transaction` rules (current transaction
count of the configured account, current network gas price), but its gas
limit is the connector estimate over the partial transaction holding
chainId, gasPrice, nonce, and from — not sender, nonce, and payload only —
and the transaction hash is returned without waiting for confirmation: the
network trace ends with the broadcast and holds no receipt wait. -/
theorem C3_amended (st : Web3State) (account : String) (c : TokenContract)
    (token_contract_address to_address : String) (amount : ℚ) :
    ((transfer_tokens st account c token_contract_address to_address
        amount).2.1.lookup "nonce" = some (Val.num (st.txCount account)))
    ∧ ((transfer_tokens st account c token_contract_address to_address
        amount).2.1.lookup "gasPrice" = some (Val.num st.gasPrice))
    ∧ ((transfer_tokens st account c token_contract_address to_address
        amount).2.1.lookup "gas" = some (Val.num (st.estimateGas
          [("chainId", Val.num st.chainId), ("gasPrice", Val.num st.gasPrice),
           ("nonce", Val.num (st.txCount account)),
           ("from", Val.str account)])))
    ∧ ((transfer_tokens st account c token_contract_address to_address
        amount).1 = st.txHash (transfer_tokens st account c
          token_contract_address to_address amount).2.1)
    ∧ ((transfer_tokens st account c token_contract_address to_address
        amount).2.2 =
       [NetCall.callDecimals, NetCall.getChainId, NetCall.getGasPrice,
        NetCall.getTransactionCount account,
        NetCall.estimateGas
          [("chainId", Val.num st.chainId), ("gasPrice", Val.num st.gasPrice),
           ("nonce", Val.num (st.txCount account)),
           ("from", Val.str account)],
        NetCall.sendRawTransaction (transfer_tokens st account c
          token_contract_address to_address amount).2.1])
    ∧ ((transfer_tokens st account c token_contract_address to_address
        amount).2.2.contains NetCall.waitForReceipt = false) :=
  ⟨rfl, rfl, rfl, rfl, rfl, rfl⟩

/-- Claim C4, confirmed: for a supported chain and network pair the
constructor succeeds exactly when the live connectivity check passes, a
failed check surfaces as a connection error, and the connectivity check is
the one network call made; for an unsupported chain or network the
constructor fails with a configuration error and the network trace is
empty, so no connection is attempted. -/
theorem C4_construction (chain network : String) (connected : Bool) :
    (supportedPair chain network = true →
      (initOk (blockchain_init chain network connected).1 = true
         ↔ connected = true)
      ∧ (connected = false →
          (blockchain_init chain network connected).1
            = Except.error (InitError.connectionError (str_lower network)))
      ∧ (blockchain_init chain network connected).2
          = [NetCall.connectivityCheck])
    ∧ (supportedPair chain network = false →
      isConfigError (blockchain_init chain network connected).1 = true
      ∧ (blockchain_init chain network connected).2 = ([] : List NetCall)) := by
  constructor
  · intro hs
    have hc : (str_lower chain == "ethereum") = true :=
      (Bool.and_eq_true _ _ |>.mp hs).1
    have hn : supported_networks.contains (str_lower network) = true :=
      (Bool.and_eq_true _ _ |>.mp hs).2
    have hc2 : str_lower chain = "ethereum" := by simpa using hc
    have hn2 : str_lower network ∈ supported_networks := by simpa using hn
    cases connected with
    | true =>
      have hres : blockchain_init chain network true
          = (Except.ok ⟨str_lower chain, str_lower network⟩,
             [NetCall.connectivityCheck]) := by
        unfold blockchain_init
        simp [hc2, hn, hn2]
      refine ⟨?_, ?_, ?_⟩
      · rw [hres]
        simp [initOk]
      · intro hfalse
        exact absurd hfalse (by simp)
      · rw [hres]
    | false =>
      have hres : blockchain_init chain network false
          = (Except.error (InitError.connectionError (str_lower network)),
             [NetCall.connectivityCheck]) := by
        unfold blockchain_init
        simp [hc2, hn, hn2]
      refine ⟨?_, ?_, ?_⟩
      · rw [hres]
        simp [initOk]
      · intro hfalse
        rw [hres]
      · rw [hres]
  · intro hs
    cases hc : (str_lower chain == "ethereum") with
    | false =>
      have hc2 : ¬ (str_lower chain = "ethereum") := by simpa using hc
      have hres : blockchain_init chain network connected
          = (Except.error (InitError.configurationError
              "Currently, only the Ethereum chain is supported."), []) := by
        unfold blockchain_init
        simp [hc2]
      rw [hres]
      exact ⟨rfl, rfl⟩
    | true =>
      have hc2 : str_lower chain = "ethereum" := by simpa using hc
      have hn : supported_networks.contains (str_lower network) = false := by
        unfold supportedPair at hs
        rw [hc] at hs
        simpa using hs
      have hn2 : ¬ (str_lower network ∈ supported_networks) := by
        simpa using hn
      have hres : blockchain_init chain network connected
          = (Except.error (InitError.configurationError
              "Unsupported network type. Supported networks are: mainnet, sepolia."),
             []) := by
        unfold blockchain_init
        simp [hc2, hn, hn2]
      rw [hres]
      exact ⟨rfl, rfl⟩

/-- Witness for claim C4 at the supported pair (ethereum, sepolia) with the
connectivity check passing and failing, and at the unsupported chain
solana. -/
theorem C4_witness :
    initOk (blockchain_init "ethereum" "sepolia" true).1 = true
    ∧ (blockchain_init "ethereum" "sepolia" false).1
        = Except.error (InitError.connectionError (str_lower "sepolia"))
    ∧ isConfigError (blockchain_init "solana" "mainnet" true).1 = true
    ∧ (blockchain_init "solana" "mainnet" true).2 = ([] : List NetCall) :=
  ⟨((C4_construction "ethereum" "sepolia" true).1 (by decide)).1.mpr rfl,
   ((C4_construction "ethereum" "sepolia" false).1 (by decide)).2.1 rfl,
   ((C4_construction "solana" "mainnet" true).2 (by decide)).1,
   ((C4_construction "solana" "mainnet" true).2 (by decide)).2⟩

/-- Claim C7, counterexample: at the contract `tc7` with raw balance
10^30 + 1 and decimals 0 — one of the claimed boundary precisions — the
default 28-digit Decimal context rounds the quotient half-even, so
`check_balance` returns 10^30 while the claimed exact value b / 10^d is
10^30 + 1. -/
theorem C7_counterexample :
    (check_balance tc7 "0xA").1 = ((10 ^ 30 : ℕ) : ℚ)
    ∧ tc7.balanceOf "0xA" = 10 ^ 30 + 1
    ∧ tc7.decimals = 0
    ∧ (tc7.balanceOf "0xA" : ℚ) / (10 : ℚ) ^ tc7.decimals
        = ((10 ^ 30 + 1 : ℕ) : ℚ)
    ∧ (decide (((10 ^ 30 : ℕ) : ℚ) = ((10 ^ 30 + 1 : ℕ) : ℚ))) = false := by
  refine ⟨?_, rfl, rfl, ?_, by decide⟩
  · have h : decimalRoundInt 28 (10 ^ 30 + 1) = 10 ^ 30 := by decide
    show decimalDivPow10 28 (10 ^ 30 + 1) 0 = ((10 ^ 30 : ℕ) : ℚ)
    unfold decimalDivPow10
    rw [h]
    norm_num
  · show ((10 ^ 30 + 1 : ℕ) : ℚ) / (10 : ℚ) ^ (0 : ℕ)
        = ((10 ^ 30 + 1 : ℕ) : ℚ)
    norm_num

/-- Claim C7, amended: `check_balance` returns the value of
`Decimal(balance) / Decimal(10 ** decimals)` under the default Decimal
context, which is b / 10^d rounded half-even to 28 significant digits;
whenever the raw balance has at most 28 significant digits — in particular
for every balance below 10^28, at any declared precision d including the
boundary cases 0, 6, and 18 — the returned decimal is exactly b / 10^d and
multiplying back by 10^d recovers the raw balance; the value is computed
fresh from two separate read-only contract calls, one for the balance and
one for the decimals. -/
theorem C7_amended (c : TokenContract) (address : String)
    (h : c.balanceOf address < 10 ^ 28) :
    (check_balance c address).1
      = (c.balanceOf address : ℚ) / (10 : ℚ) ^ c.decimals
    ∧ (check_balance c address).1 * (10 : ℚ) ^ c.decimals
      = (c.balanceOf address : ℚ)
    ∧ (check_balance c address).2
      = [NetCall.callBalanceOf address, NetCall.callDecimals] := by
  have hr : decimalRoundInt 28 (c.balanceOf address) = c.balanceOf address :=
    decimalRoundInt_eq_self (c.balanceOf address) h
  refine ⟨?_, ?_, rfl⟩
  · show decimalDivPow10 28 (c.balanceOf address) c.decimals
        = (c.balanceOf address : ℚ) / (10 : ℚ) ^ c.decimals
    unfold decimalDivPow10
    rw [hr]
  · show decimalDivPow10 28 (c.balanceOf address) c.decimals
        * (10 : ℚ) ^ c.decimals = (c.balanceOf address : ℚ)
    unfold decimalDivPow10
    rw [hr]
    have h10 : ((10 : ℚ) ^ c.decimals) ≠ 0 := pow_ne_zero _ (by norm_num)
    field_simp

/-- Witness for the amended claim C7 at the six-decimal contract `tc6` and
the eighteen-decimal contract `tc18`, both with balances inside the
28-digit precision, where the scaling is exact and the round trip recovers
the raw balance. -/
theorem C7_amended_witness :
    tc6.balanceOf "0xA" < 10 ^ 28
    ∧ (check_balance tc6 "0xA").1
        = (tc6.balanceOf "0xA" : ℚ) / (10 : ℚ) ^ tc6.decimals
    ∧ (check_balance tc6 "0xA").1 * (10 : ℚ) ^ tc6.decimals
        = (tc6.balanceOf "0xA" : ℚ)
    ∧ tc18.balanceOf "0xA" < 10 ^ 28
    ∧ (check_balance tc18 "0xA").1 * (10 : ℚ) ^ tc18.decimals
        = (tc18.balanceOf "0xA" : ℚ) :=
  ⟨by decide, (C7_amended tc6 "0xA" (by decide)).1,
   (C7_amended tc6 "0xA" (by decide)).2.1,
   by decide, (C7_amended tc18 "0xA" (by decide)).2.1⟩

/-- Claim C8, counterexample: a well-formed payload whose logs list is
non-empty but whose `event` object lacks the `network` key makes the
handler raise an uncaught KeyError at the logging f-string: nothing is
handed to the task queue and no success response is returned. -/
theorem C8_counterexample :
    logsOf body_nonet = Except.ok (Json.arr [Json.num 1])
    ∧ (Json.arr [Json.num 1]).truthy = true
    ∧ process_blockchain_events "POST" (some body_nonet)
        = (HandlerOutcome.pyError (PyError.keyError "network"), none)
    ∧ isSuccess (process_blockchain_events "POST" (some body_nonet)).1
        = false :=
  ⟨rfl, rfl, rfl, rfl⟩

/-- Claim C8, amended: for a POST whose body is well-formed JSON with a
logs list at event.data.block.logs, an empty list yields the success
response with no handoff; a non-empty list yields the success response with
the whole payload handed to the task queue provided the payload also
carries an event.network value (which the handler reads for logging before
the handoff). -/
theorem C8_amended (body : Json) (xs : List Json)
    (hlogs : logsOf body = Except.ok (Json.arr xs)) :
    (xs.isEmpty = true →
       process_blockchain_events "POST" (some body)
         = (HandlerOutcome.response 200 "200", none))
    ∧ (∀ w, networkOf body = Except.ok w → xs.isEmpty = false →
       process_blockchain_events "POST" (some body)
         = (HandlerOutcome.response 200 "200", some body)) := by
  constructor
  · intro he
    simp [process_blockchain_events, hlogs, Json.truthy, he]
  · intro w hw he
    simp [process_blockchain_events, hlogs, hw, Json.truthy, he]

/-- Witness for the amended claim C8: a full payload with a network key and
one log entry is queued with a success response; the same payload with an
empty logs list is not queued but still gets the success response. -/
theorem C8_amended_witness :
    logsOf body_full = Except.ok (Json.arr [Json.num 1])
    ∧ networkOf body_full = Except.ok (Json.str "ETH_SEPOLIA")
    ∧ process_blockchain_events "POST" (some body_full)
        = (HandlerOutcome.response 200 "200", some body_full)
    ∧ logsOf body_emptyLogs = Except.ok (Json.arr [])
    ∧ process_blockchain_events "POST" (some body_emptyLogs)
        = (HandlerOutcome.response 200 "200", none) :=
  ⟨rfl, rfl,
   (C8_amended body_full [Json.num 1] rfl).2 (Json.str "ETH_SEPOLIA") rfl rfl,
   rfl,
   (C8_amended body_emptyLogs [] rfl).1 rfl⟩

/-- Claim C9, counterexample: the valid JSON body whose `event` key holds
the number 5 lacks the event.data.block.logs key path, yet the uncaught
exception the handler raises is a TypeError from subscripting a non-dict,
not a KeyError. -/
theorem C9_counterexample :
    logsOf body_badevent = Except.error PyError.typeError
    ∧ process_blockchain_events "POST" (some body_badevent)
        = (HandlerOutcome.pyError PyError.typeError, none)
    ∧ isKeyError
        (process_blockchain_events "POST" (some body_badevent)).1 = false :=
  ⟨rfl, rfl, rfl⟩

/-- Claim C9, amended: for every POST whose body is valid JSON on which the
event.data.block.logs traversal fails, the handler re-raises that failure
uncaught — a KeyError when a dict along the path is missing the key, a
TypeError when a non-dict is subscripted — and returns no response, while a
JSON-decode failure is caught, logged, and also produces no response. -/
theorem C9_amended (body : Json) (e : PyError)
    (h : logsOf body = Except.error e) :
    process_blockchain_events "POST" (some body)
      = (HandlerOutcome.pyError e, none)
    ∧ process_blockchain_events "POST" none
      = (HandlerOutcome.noResponse, none) := by
  constructor
  · simp [process_blockchain_events, h]
  · rfl

/-- Witness for the amended claim C9 at the empty JSON object, whose first
traversal step raises KeyError on the missing `event` key. -/
theorem C9_amended_witness :
    logsOf (Json.obj []) = Except.error (PyError.keyError "event")
    ∧ process_blockchain_events "POST" (some (Json.obj []))
        = (HandlerOutcome.pyError (PyError.keyError "event"), none)
    ∧ process_blockchain_events "POST" none
        = (HandlerOutcome.noResponse, none) :=
  ⟨rfl, (C9_amended (Json.obj []) (PyError.keyError "event") rfl).1,
   (C9_amended (Json.obj []) (PyError.keyError "event") rfl).2⟩

/-- Claim C10, confirmed: the constructor lowercases both arguments before
validating, so the validation passes — no configuration error is raised —
exactly when the lowercase chain is ethereum and the lowercase network is
in the supported set, and a successfully constructed connector stores the
lowercased chain and network identifiers. -/
theorem C10_lowercase (chain network : String) (connected : Bool) :
    (isConfigError (blockchain_init chain network connected).1 = false
       ↔ (str_lower chain = "ethereum"
           ∧ str_lower network ∈ supported_networks))
    ∧ (∀ conn, (blockchain_init chain network connected).1 = Except.ok conn →
        conn.chain = str_lower chain
        ∧ conn.network_type = str_lower network) := by
  cases hc : (str_lower chain == "ethereum") with
  | false =>
    have hc2 : ¬ (str_lower chain = "ethereum") := by simpa using hc
    have hres : (blockchain_init chain network connected).1
        = Except.error (InitError.configurationError
            "Currently, only the Ethereum chain is supported.") := by
      unfold blockchain_init
      simp [hc2]
    constructor
    · rw [hres]
      constructor
      · intro h
        exact absurd h (by simp [isConfigError])
      · intro h
        exact absurd h.1 hc2
    · intro conn hconn
      rw [hres] at hconn
      exact absurd hconn (by simp)
  | true =>
    have hc2 : str_lower chain = "ethereum" := by simpa using hc
    cases hn : supported_networks.contains (str_lower network) with
    | false =>
      have hn2 : ¬ (str_lower network ∈ supported_networks) := by
        simpa using hn
      have hres : (blockchain_init chain network connected).1
          = Except.error (InitError.configurationError
              "Unsupported network type. Supported networks are: mainnet, sepolia.") := by
        unfold blockchain_init
        simp [hc2, hn, hn2]
      constructor
      · rw [hres]
        constructor
        · intro h
          exact absurd h (by simp [isConfigError])
        · intro h
          exact absurd h.2 hn2
      · intro conn hconn
        rw [hres] at hconn
        exact absurd hconn (by simp)
    | true =>
      have hn2 : str_lower network ∈ supported_networks := by simpa using hn
      cases connected with
      | true =>
        have hres : (blockchain_init chain network true).1
            = Except.ok ⟨str_lower chain, str_lower network⟩ := by
          unfold blockchain_init
          simp [hc2, hn, hn2]
        constructor
        · rw [hres]
          constructor
          · intro h
            exact ⟨hc2, hn2⟩
          · intro h
            rfl
        · intro conn hconn
          rw [hres] at hconn
          have h2 := Except.ok.inj hconn
          rw [← h2]
          exact ⟨rfl, rfl⟩
      | false =>
        have hres : (blockchain_init chain network false).1
            = Except.error (InitError.connectionError (str_lower network)) := by
          unfold blockchain_init
          simp [hc2, hn, hn2]
        constructor
        · rw [hres]
          constructor
          · intro h
            exact ⟨hc2, hn2⟩
          · intro h
            rfl
        · intro conn hconn
          rw [hres] at hconn
          exact absurd hconn (by simp)

/-- Witness for claim C10: the mixed-case arguments Ethereum and SEPOLIA
pass validation and the stored identifiers are their lowercase forms. -/
theorem C10_witness :
    isConfigError (blockchain_init "Ethereum" "SEPOLIA" true).1 = false
    ∧ (Connector.chain ⟨"ethereum", "sepolia"⟩ = str_lower "Ethereum"
       ∧ Connector.network_type ⟨"ethereum", "sepolia"⟩
           = str_lower "SEPOLIA") :=
  ⟨(C10_lowercase "Ethereum" "SEPOLIA" true).1.mpr (by decide),
   (C10_lowercase "Ethereum" "SEPOLIA" true).2 ⟨"ethereum", "sepolia"⟩ rfl⟩

end FlowForge
